import Mathlib

/-!
Verification of `ksysguard_mdraid_monitor` (a ksysguardd-protocol bridge
daemon exposing Linux MD-RAID status parsed from `/proc/mdstat`).

This file shallowly embeds the Python sources:
* `model.py` — the `/proc/mdstat` parser (`RaidDeviceInfo`, `RaidStatus`
  and the four regular expressions used to parse the block lines);
* `daemon.py` / `command.py` — the command table, input-line normalization,
  the cached status refresh (`_read_raid_status`) and the sensor classes.

Pure functions become Lean functions; the regular expressions are embedded
as explicit leftmost/greedy backtracking matchers (continuation-passing
style, trying split points longest-first, exactly the semantics of Python's
`re.match`); Python exceptions (failed `re` group access, `int(None)`,
wrong constructor arity) become `Option.none`; the mutable daemon object
becomes explicit state passing.
-/

namespace MdMon

/-! ## Python string primitives

Line and whitespace handling mirroring CPython `str` semantics for the
character sets relevant here (`str.strip`, `str.rstrip`, `str.lstrip`,
`str.split()` with no separator, `str.split(" ")`, `str.splitlines`).
-/

/-- Characters treated as whitespace by Python's `str.strip` / `str.split()`
and by `\s` in a `str` regular expression pattern. -/
def isPyWs (c : Char) : Bool :=
  c = ' ' || c = '\t' || c = '\n' || c = '\r' || c = '\x0b' || c = '\x0c' ||
  c = '\x1c' || c = '\x1d' || c = '\x1e' || c = '\x1f' || c = '\x85' ||
  c = '\xa0' || c = '\u1680' ||
  (0x2000 ≤ c.toNat && c.toNat ≤ 0x200a) ||
  c = '\u2028' || c = '\u2029' || c = '\u202f' || c = '\u205f' || c = '\u3000'

/-- `str.lstrip()` on the underlying character list. -/
def pyLstripChars (cs : List Char) : List Char := cs.dropWhile isPyWs

/-- `str.rstrip()` on the underlying character list. -/
def pyRstripChars (cs : List Char) : List Char :=
  (cs.reverse.dropWhile isPyWs).reverse

/-- `str.strip()` on the underlying character list. -/
def pyStripChars (cs : List Char) : List Char :=
  pyRstripChars (pyLstripChars cs)

def pyLstrip (s : String) : String := ⟨pyLstripChars s.data⟩
def pyRstrip (s : String) : String := ⟨pyRstripChars s.data⟩
def pyStrip (s : String) : String := ⟨pyStripChars s.data⟩

/-- Helper for `str.split()` (no separator): accumulates the current token
(in reverse); whitespace runs separate tokens, empty tokens are dropped. -/
def splitWsAux : List Char → List Char → List (List Char)
  | [], tok => if tok.isEmpty then [] else [tok.reverse]
  | c :: cs, tok =>
    if isPyWs c then
      if tok.isEmpty then splitWsAux cs [] else tok.reverse :: splitWsAux cs []
    else splitWsAux cs (c :: tok)

/-- Python `str.split()` with no separator. -/
def pySplitWs (cs : List Char) : List (List Char) := splitWsAux cs []

/-- Helper for `str.split(" ")`: splits at every single space, keeping empty
pieces (Python semantics for an explicit separator). -/
def splitSpaceAux : List Char → List Char → List String
  | [], tok => [⟨tok.reverse⟩]
  | c :: cs, tok =>
    if c = ' ' then String.mk tok.reverse :: splitSpaceAux cs []
    else splitSpaceAux cs (c :: tok)

/-- Python `str.split(" ")`. -/
def pySplitSpace (s : String) : List String := splitSpaceAux s.data []

/-- Characters at which `str.splitlines` breaks (besides the `"\r\n"` pair,
handled separately). -/
def isPyLineBreak (c : Char) : Bool :=
  c = '\n' || c = '\r' || c = '\x0b' || c = '\x0c' ||
  c = '\x1c' || c = '\x1d' || c = '\x1e' || c = '\x85' ||
  c = '\u2028' || c = '\u2029'

/-- Helper for `str.splitlines(keepends=False)`. -/
def splitlinesAux : List Char → List Char → List String
  | [], tok => if tok.isEmpty then [] else [⟨tok.reverse⟩]
  | '\r' :: '\n' :: cs, tok => String.mk tok.reverse :: splitlinesAux cs []
  | c :: cs, tok =>
    if isPyLineBreak c then String.mk tok.reverse :: splitlinesAux cs []
    else splitlinesAux cs (c :: tok)

/-- Python `str.splitlines(keepends=False)`. -/
def pySplitlines (s : String) : List String := splitlinesAux s.data []

/-- Python `str.startswith(prefix)`. -/
def pyStartswith (s pre : String) : Bool := pre.data.isPrefixOf s.data

/-- `int()` applied to a list of decimal digit characters. -/
def digitsToNat (ds : List Char) : Nat :=
  ds.foldl (fun acc c => 10 * acc + (c.toNat - '0'.toNat)) 0

/-! ## Backtracking match combinators

`re.match` semantics: anchored at the start of the string, leftmost match,
greedy quantifiers with backtracking.  Each combinator takes an explicit
continuation; a greedy quantifier over a character class tries every split
point from the longest run downwards, which is exactly Python's behaviour
for the patterns embedded below (all quantifiers in those patterns range
over single-character classes).
-/

/-- Return the first `some` produced by `f` over `xs`, in order. -/
def firstSome {α β : Type} (xs : List α) (f : α → Option β) : Option β :=
  match xs with
  | [] => none
  | x :: rest => (f x).orElse fun _ => firstSome rest f

/-- All splits `(run, rest)` of `cs` where `run` is a (possibly empty)
prefix of characters satisfying `p`, longest first. -/
def splitsDesc (p : Char → Bool) (cs : List Char) : List (List Char × List Char) :=
  let n := (cs.takeWhile p).length
  ((List.range (n + 1)).reverse).map fun k => (cs.take k, cs.drop k)

/-- Greedy `class*` with backtracking. -/
def starCls {α : Type} (p : Char → Bool) (k : List Char → List Char → Option α)
    (cs : List Char) : Option α :=
  firstSome (splitsDesc p cs) fun pr => k pr.1 pr.2

/-- Greedy `class+` with backtracking (at least one character). -/
def plusCls {α : Type} (p : Char → Bool) (k : List Char → List Char → Option α)
    (cs : List Char) : Option α :=
  firstSome ((splitsDesc p cs).filter fun pr => !pr.1.isEmpty) fun pr => k pr.1 pr.2

/-- A literal piece of pattern text. -/
def litP {α : Type} (pat : List Char) (k : List Char → Option α)
    (cs : List Char) : Option α :=
  if pat.isPrefixOf cs then k (cs.drop pat.length) else none

/-- A single character from a class. -/
def chCls {α : Type} (p : Char → Bool) (k : Char → List Char → Option α)
    (cs : List Char) : Option α :=
  match cs with
  | [] => none
  | c :: rest => if p c then k c rest else none

/-- `$` in Python `re`: end of string, or just before a final newline. -/
def endAnchor (cs : List Char) : Bool :=
  cs.isEmpty || cs = ['\n']

/-- `.` in Python `re` (without `DOTALL`): any character except a newline. -/
def dotAny (c : Char) : Bool := c ≠ '\n'

def isNonZeroDigit (c : Char) : Bool := '1' ≤ c && c ≤ '9'

def isLowerAlnum (c : Char) : Bool :=
  ('a' ≤ c && c ≤ 'z') || ('0' ≤ c && c ≤ '9')

def isNonWs (c : Char) : Bool := !isPyWs c

def isUnderscoreOrU (c : Char) : Bool := c = 'U' || c = '_'

/-! ## The four regular expressions of `model.py`

Each matcher transcribes one compiled pattern.  The source names end in
`parser` and are therefore renamed here to `match...Line`.
-/

/-- `(?P<md_device>[1-9][0-9]+|[0-9])` — alternation tried left to right. -/
def mdDeviceAlt {α : Type} (k : List Char → List Char → Option α)
    (cs : List Char) : Option α :=
  (chCls isNonZeroDigit (fun c1 r1 =>
    plusCls Char.isDigit (fun ds r2 => k (c1 :: ds) r2) r1) cs).orElse fun _ =>
  chCls Char.isDigit (fun c r => k [c] r) cs

/-- `(?P<is_active>(in)?active)` — greedy option: `inactive` is tried first. -/
def inActiveAlt {α : Type} (k : String → List Char → Option α)
    (cs : List Char) : Option α :=
  (litP "inactive".data (fun r => k "inactive" r) cs).orElse fun _ =>
  litP "active".data (fun r => k "active" r) cs

/-- Captures of `header_parser` in `model.py`. -/
structure HeaderCaps where
  md_device : String
  is_active : String
  level : String
  components : String
deriving DecidableEq, Repr

/-- `model.py` pattern
`^md(?P<md_device>[1-9][0-9]+|[0-9]) : (?P<is_active>(in)?active) (?P<level>[a-z0-9]*)(?P<components> .*)`
applied with `re.match`. -/
def matchHeaderLine (s : String) : Option HeaderCaps :=
  litP "md".data (fun r1 =>
    mdDeviceAlt (fun dev r2 =>
      litP " : ".data (fun r3 =>
        inActiveAlt (fun act r4 =>
          litP " ".data (fun r5 =>
            starCls isLowerAlnum (fun lvl r6 =>
              litP " ".data (fun r7 =>
                starCls dotAny (fun comps _r8 =>
                  some { md_device := ⟨dev⟩, is_active := act,
                         level := ⟨lvl⟩, components := ⟨' ' :: comps⟩ })
                  r7) r6) r5) r4) r3) r2) r1) s.data

/-- `(super (?P<superblock_format>\d+.\d+) )?` — note the `.` in the source
pattern is an unescaped dot and matches any non-newline character. -/
def superblockOpt {α : Type} (k : Option String → List Char → Option α)
    (cs : List Char) : Option α :=
  (litP "super ".data (fun r1 =>
    plusCls Char.isDigit (fun d1 r2 =>
      chCls dotAny (fun c r3 =>
        plusCls Char.isDigit (fun d2 r4 =>
          litP " ".data (fun r5 => k (some ⟨d1 ++ c :: d2⟩) r5) r4) r3) r2) r1) cs).orElse
  fun _ => k none cs

/-- `(?P<level>linear|faulty|multipath|level \d+)?` (capture unused by the code). -/
def levelOpt {α : Type} (k : List Char → Option α) (cs : List Char) : Option α :=
  (litP "linear".data k cs).orElse fun _ =>
  (litP "faulty".data k cs).orElse fun _ =>
  (litP "multipath".data k cs).orElse fun _ =>
  (litP "level ".data (fun r => plusCls Char.isDigit (fun _ r2 => k r2) r) cs).orElse fun _ =>
  k cs

/-- `(, (?P<chunk_size>\S+) chunk, algorithm (?P<algorithm>\d+) )?`
(the `algorithm` capture is unused by the code). -/
def chunkAlgOpt {α : Type} (k : Option String → List Char → Option α)
    (cs : List Char) : Option α :=
  (litP ", ".data (fun r1 =>
    plusCls isNonWs (fun ck r2 =>
      litP " chunk, algorithm ".data (fun r3 =>
        plusCls Char.isDigit (fun _ r4 =>
          litP " ".data (fun r5 => k (some ⟨ck⟩) r5) r4) r3) r2) r1) cs).orElse
  fun _ => k none cs

/-- `model.py` pattern
`^(?P<block_count>\d+) blocks (super (?P<superblock_format>\d+.\d+) )?(?P<level>linear|faulty|multipath|level \d+)?(, (?P<chunk_size>\S+) chunk, algorithm (?P<algorithm>\d+) )?\[(?P<expected_device_count>\d+)/(?P<current_device_count>\d+)\] \[[U_]+\]$`
applied with `re.match`; yields
`(block_count, superblock_format, chunk_size, expected_device_count, current_device_count)`. -/
def matchBlockCountLine (s : String) :
    Option (Nat × Option String × Option String × Nat × Nat) :=
  plusCls Char.isDigit (fun bc r1 =>
    litP " blocks ".data (fun r2 =>
      superblockOpt (fun sbf r3 =>
        levelOpt (fun r4 =>
          chunkAlgOpt (fun ck r5 =>
            litP "[".data (fun r6 =>
              plusCls Char.isDigit (fun ed r7 =>
                litP "/".data (fun r8 =>
                  plusCls Char.isDigit (fun cd r9 =>
                    litP "] [".data (fun r10 =>
                      plusCls isUnderscoreOrU (fun _ r11 =>
                        litP "]".data (fun r12 =>
                          if endAnchor r12 then
                            some (digitsToNat bc, sbf, ck,
                                  digitsToNat ed, digitsToNat cd)
                          else none) r11) r10) r9) r8) r7) r6) r5) r4) r3) r2) r1) s.data

/-- `\d{1,2}` — greedy counted repetition: two digits tried before one. -/
def digits12 {α : Type} (k : List Char → List Char → Option α)
    (cs : List Char) : Option α :=
  (match cs with
   | a :: b :: r => if a.isDigit && b.isDigit then k [a, b] r else none
   | _ => none).orElse fun _ =>
  match cs with
  | a :: r => if a.isDigit then k [a] r else none
  | _ => none

/-- `(?P<progress>([1-9]\d{1,2}|\d)\.\d)` — passes the integral digits and the
single fractional digit to the continuation. -/
def progressGroup {α : Type} (k : List Char → Char → List Char → Option α)
    (cs : List Char) : Option α :=
  (chCls isNonZeroDigit (fun c1 r1 =>
    digits12 (fun ds r2 =>
      litP ".".data (fun r3 =>
        chCls Char.isDigit (fun f r4 => k (c1 :: ds) f r4) r3) r2) r1) cs).orElse fun _ =>
  chCls Char.isDigit (fun c r1 =>
    litP ".".data (fun r2 =>
      chCls Char.isDigit (fun f r3 => k [c] f r3) r2) r1) cs

/-- `( speed=(?P<speed>\d+)K/sec)?`. -/
def speedOpt {α : Type} (k : Option Nat → List Char → Option α)
    (cs : List Char) : Option α :=
  (litP " speed=".data (fun r1 =>
    plusCls Char.isDigit (fun d r2 =>
      litP "K/sec".data (fun r3 => k (some (digitsToNat d)) r3) r2) r1) cs).orElse
  fun _ => k none cs

/-- Captures of `activity_parser` in `model.py`.  The progress percentage and
the ETA carry exactly one fractional decimal digit, so Python's `float` of the
captured text is represented exactly here as the value multiplied by ten. -/
structure ActivityCaps where
  activity_mode : String
  progress_tenths : Nat
  current_block : Nat
  total_blocks : Nat
  eta_tenths : Nat
  speed : Option Nat
deriving DecidableEq, Repr

/-- `model.py` pattern
`^\[=.*>\.*]\s+(?P<activity_mode>\S+) = (?P<progress>([1-9]\d{1,2}|\d)\.\d)% \((?P<current_block>\d+)/(?P<total_blocks>\d+)\) finish=(?P<eta_min>\d+\.\d)min( speed=(?P<speed>\d+)K/sec)?`
applied with `re.match` (not anchored at the end). -/
def matchActivityLine (s : String) : Option ActivityCaps :=
  litP "[=".data (fun r1 =>
    starCls dotAny (fun _ r2 =>
      litP ">".data (fun r3 =>
        starCls (fun c => c = '.') (fun _ r4 =>
          litP "]".data (fun r5 =>
            plusCls isPyWs (fun _ r6 =>
              plusCls isNonWs (fun mode r7 =>
                litP " = ".data (fun r8 =>
                  progressGroup (fun pint pfrac r9 =>
                    litP "% (".data (fun r10 =>
                      plusCls Char.isDigit (fun cur r11 =>
                        litP "/".data (fun r12 =>
                          plusCls Char.isDigit (fun tot r13 =>
                            litP ") finish=".data (fun r14 =>
                              plusCls Char.isDigit (fun e1 r15 =>
                                litP ".".data (fun r16 =>
                                  chCls Char.isDigit (fun e2 r17 =>
                                    litP "min".data (fun r18 =>
                                      speedOpt (fun sp _r19 =>
                                        some { activity_mode := ⟨mode⟩,
                                               progress_tenths :=
                                                 10 * digitsToNat pint +
                                                   (pfrac.toNat - '0'.toNat),
                                               current_block := digitsToNat cur,
                                               total_blocks := digitsToNat tot,
                                               eta_tenths :=
                                                 10 * digitsToNat e1 +
                                                   (e2.toNat - '0'.toNat),
                                               speed := sp }) r18) r17) r16) r15)
                              r14) r13) r12) r11) r10) r9) r8) r7) r6) r5) r4) r3) r2) r1)
    s.data

/-- `model.py` pattern
`^bitmap: (?P<used_pages_count>\d+)/(?P<total_pages_count>\d+) pages \[(?P<size_used_kb>\d)KB\], (?P<bitmap_chunk_size_kb>\d+)KB chunk`
applied with `re.match` (not anchored at the end; the used size is a single
digit in the source pattern); yields
`(used_pages_count, total_pages_count, size_used_kb, bitmap_chunk_size_kb)`. -/
def matchBitmapLine (s : String) : Option (Nat × Nat × Nat × Nat) :=
  litP "bitmap: ".data (fun r1 =>
    plusCls Char.isDigit (fun up r2 =>
      litP "/".data (fun r3 =>
        plusCls Char.isDigit (fun tp r4 =>
          litP " pages [".data (fun r5 =>
            chCls Char.isDigit (fun sz r6 =>
              litP "KB], ".data (fun r7 =>
                plusCls Char.isDigit (fun ck r8 =>
                  litP "KB chunk".data (fun _r9 =>
                    some (digitsToNat up, digitsToNat tp,
                          sz.toNat - '0'.toNat, digitsToNat ck)) r8) r7) r6) r5) r4)
          r3) r2) r1) s.data

/-! ## `RaidDeviceInfo` (model.py)

The static parsing helpers raise `AttributeError` when the regular
expression fails to match (`.group` on `None`); `_parse_activity_line`
additionally raises `TypeError` when the optional `speed` group is absent
(`int(None)`).  Any raised exception propagates out of the constructor, so
all of them are embedded as `none`.
-/

/-- `RaidDeviceInfo._parse_header_line`:
`(md_device, is_active == "active", level, components.strip().split(" "))`. -/
def _parse_header_line (s : String) :
    Option (String × Bool × String × List String) :=
  match matchHeaderLine s with
  | none => none
  | some caps =>
    some (caps.md_device, caps.is_active = "active", caps.level,
          pySplitSpace (pyStrip caps.components))

/-- `RaidDeviceInfo._parse_block_count_line`:
`(block_count, superblock_format, chunk_size, expected_device_count, current_device_count)`. -/
def _parse_block_count_line (s : String) :
    Option (Nat × Option String × Option String × Nat × Nat) :=
  matchBlockCountLine s

/-- `RaidDeviceInfo._parse_activity_line`:
`(current_activity, progress, currently_processed_block, eta, speed)`;
fails when the regular expression does not match or when `speed` is absent
(`int(None)` raises `TypeError`). -/
def _parse_activity_line (s : String) :
    Option (String × Nat × Nat × Nat × Nat) :=
  match matchActivityLine s with
  | none => none
  | some caps =>
    match caps.speed with
    | none => none
    | some sp =>
      some (caps.activity_mode, caps.progress_tenths, caps.current_block,
            caps.eta_tenths, sp)

/-- `RaidDeviceInfo._parse_bitmap_line`:
`(bitmap_used_pages, bitmap_total_pages, bitmap_used_size_kb, bitmap_chunk_size_kb)`. -/
def _parse_bitmap_line (s : String) : Option (Nat × Nat × Nat × Nat) :=
  matchBitmapLine s

/-- One parsed MD device block (`RaidDeviceInfo` in `model.py`).  The two
`float` fields (`progress_percent` and `activity_eta_minutes`) always carry
exactly one fractional decimal digit and are represented exactly as tenths. -/
structure RaidDeviceInfo where
  md_device : String
  is_active : Bool
  raid_level : String
  component_devices : List String
  block_count : Nat
  superblock_format : Option String
  chunk_size : Option String
  expected_device_count : Nat
  current_device_count : Nat
  current_activity : String
  progress_percent_tenths : Nat
  currently_processed_block : Nat
  activity_eta_minutes_tenths : Nat
  speed_kbytes_per_sec : Nat
  has_bitmap : Bool
  bitmap_used_pages : Nat
  bitmap_total_pages : Nat
  bitmap_used_size_kb : Nat
  bitmap_chunk_size_kb : Nat
deriving DecidableEq, Repr

/-- Applying one bitmap summary line to the record under construction:
`self.has_bitmap = True` followed by the four bitmap assignments (a failed
match raises and is `none`). -/
def applyBitmapLine (r : RaidDeviceInfo) (l : String) : Option RaidDeviceInfo :=
  match _parse_bitmap_line l with
  | none => none
  | some (up, tp, us, ck) =>
    some { r with
           has_bitmap := true, bitmap_used_pages := up,
           bitmap_total_pages := tp, bitmap_used_size_kb := us,
           bitmap_chunk_size_kb := ck }

/-- The `if line_3:` block of the constructor: a truthy third line either
starts with `"bitmap"` (bitmap summary, device idle) or is parsed as an
activity line. -/
def applyLine3 (r : RaidDeviceInfo) : Option String → Option RaidDeviceInfo
  | none => some r
  | some l3 =>
    if l3 = "" then some r
    else if pyStartswith l3 "bitmap" then applyBitmapLine r l3
    else
      match _parse_activity_line l3 with
      | none => none
      | some (mode, prog, cb, eta, sp) =>
        some { r with
               current_activity := mode, progress_percent_tenths := prog,
               currently_processed_block := cb,
               activity_eta_minutes_tenths := eta,
               speed_kbytes_per_sec := sp }

/-- The `if line_4:` block of the constructor: a truthy fourth line is
always a bitmap summary. -/
def applyLine4 (r : RaidDeviceInfo) : Option String → Option RaidDeviceInfo
  | none => some r
  | some l4 => if l4 = "" then some r else applyBitmapLine r l4

/-- The record as it stands after the two mandatory lines have been parsed
and the defaults for the optional parts have been assigned. -/
def baseRecord : (String × Bool × String × List String) →
    (Nat × Option String × Option String × Nat × Nat) → RaidDeviceInfo
  | (md, act, lvl, comps), (bc, sbf, cks, expected, current) =>
    { md_device := md, is_active := act, raid_level := lvl,
      component_devices := comps, block_count := bc,
      superblock_format := sbf, chunk_size := cks,
      expected_device_count := expected, current_device_count := current,
      current_activity := "idle", progress_percent_tenths := 0,
      currently_processed_block := 0, activity_eta_minutes_tenths := 0,
      speed_kbytes_per_sec := 0,
      has_bitmap := false, bitmap_used_pages := 0, bitmap_total_pages := 0,
      bitmap_used_size_kb := 0, bitmap_chunk_size_kb := 0 }

/-- `RaidDeviceInfo.__init__(line_1, line_2, line_3=None, line_4=None)`:
parse the two mandatory lines, set the defaults for the optional parts,
then run the `line_3` and `line_4` blocks in order.  A `none` result is a
raised exception. -/
def RaidDeviceInfo.ofLines (line_1 line_2 : String)
    (line_3 line_4 : Option String) : Option RaidDeviceInfo :=
  match _parse_header_line line_1 with
  | none => none
  | some hdr =>
    match _parse_block_count_line line_2 with
    | none => none
    | some cnt =>
      match applyLine3 (baseRecord hdr cnt) line_3 with
      | none => none
      | some r3 => applyLine4 r3 line_4

/-- The `component_count` property. -/
def RaidDeviceInfo.component_count (d : RaidDeviceInfo) : Nat :=
  d.component_devices.length

/-- `RaidDeviceInfo(*block_lines)`: the constructor takes two to four
positional line arguments; any other argument count raises `TypeError`. -/
def raidDeviceInfoOfBlock : List String → Option RaidDeviceInfo
  | [l1, l2] => RaidDeviceInfo.ofLines l1 l2 none none
  | [l1, l2, l3] => RaidDeviceInfo.ofLines l1 l2 (some l3) none
  | [l1, l2, l3, l4] => RaidDeviceInfo.ofLines l1 l2 (some l3) (some l4)
  | _ => none

/-! ## `RaidStatus` (model.py) -/

/-- `RaidStatus._should_skip_line`. -/
def _should_skip_line (line : String) : Bool :=
  ["Personalities", "read_ahead", "unused devices:"].any fun ignored =>
    pyStartswith line ignored

/-- State of the `_parse_device_info` generator loop: the significant lines
accumulated for the current block, and the devices yielded so far. -/
structure ParseState where
  block_lines : List String
  out : List RaidDeviceInfo
deriving DecidableEq, Repr

/-- One iteration of the `_parse_device_info` loop: strip the line, skip
ignorable lines, accumulate non-empty lines, and on an empty line construct
a `RaidDeviceInfo` from the accumulated block (a raised exception is `none`). -/
def processLine (st : ParseState) (raw : String) : Option ParseState :=
  let line := pyStrip raw
  if _should_skip_line line then some st
  else if line ≠ "" then
    some { st with block_lines := st.block_lines ++ [line] }
  else
    match raidDeviceInfoOfBlock st.block_lines with
    | none => none
    | some dev => some { block_lines := [], out := st.out ++ [dev] }

/-- The `_parse_device_info` loop over a list of lines, from a given state.
The final accumulator (`block_lines` with no terminating empty line) is
dropped, exactly as the generator simply ends. -/
def processLinesFrom : List String → ParseState → Option ParseState
  | [], st => some st
  | l :: ls, st =>
    match processLine st l with
    | none => none
    | some st2 => processLinesFrom ls st2

/-- `list(RaidStatus._parse_device_info(mdstat))`. -/
def _parse_device_info (mdstat : String) : Option (List RaidDeviceInfo) :=
  (processLinesFrom (pySplitlines mdstat) ⟨[], []⟩).map (·.out)

/-- `RaidStatus`: the parsed device list. -/
structure RaidStatus where
  device_info : List RaidDeviceInfo
deriving DecidableEq, Repr

/-- `RaidStatus(mdstat)` for an in-memory string (a raised parse error is
`none`). -/
def RaidStatus.ofMdstat (mdstat : String) : Option RaidStatus :=
  (_parse_device_info mdstat).map RaidStatus.mk

/-- `RaidStatus()` reading from `/proc/mdstat`; the source is modelled as
`Option String` (`none` = the file does not exist / cannot be read, which
raises `RuntimeError` in `_read_status_from_proc`). -/
def RaidStatus.ofProc (source : Option String) : Option RaidStatus :=
  match source with
  | none => none
  | some text => RaidStatus.ofMdstat text

def RaidStatus.total_device_count (rs : RaidStatus) : Nat :=
  rs.device_info.length

def RaidStatus.active_device_count (rs : RaidStatus) : Nat :=
  rs.device_info.countP fun d => d.is_active

def RaidStatus.inactive_device_count (rs : RaidStatus) : Nat :=
  rs.device_info.countP fun d => !d.is_active

def RaidStatus.degraded_device_count (rs : RaidStatus) : Nat :=
  rs.device_info.countP fun d =>
    d.current_device_count < d.expected_device_count

def RaidStatus.total_component_count (rs : RaidStatus) : Nat :=
  (rs.device_info.map RaidDeviceInfo.component_count).sum

def RaidStatus.bitmap_device_count (rs : RaidStatus) : Nat :=
  rs.device_info.countP fun d => d.has_bitmap

/-! ## Sensors (command.py)

`command.py` defines exactly five concrete `AbstractMonitor` subclasses:
`ActiveDeviceCount`, `DegradedDeviceCount`, `FailedDeviceCount`,
`TotalComponentCount` and `TotalDeviceCount` (plus the abstract base
itself, which the daemon's discovery filter removes explicitly).
-/

inductive Sensor where
  | activeDeviceCount
  | degradedDeviceCount
  | failedDeviceCount
  | totalComponentCount
  | totalDeviceCount
deriving DecidableEq, Repr

/-- The `command` property of each monitor class. -/
def Sensor.command : Sensor → String
  | .activeDeviceCount => "SoftRaid/ActiveDevices"
  | .degradedDeviceCount => "SoftRaid/DegradedDevices"
  | .failedDeviceCount => "SoftRaid/FailedDevices"
  | .totalComponentCount => "SoftRaid/TotalComponents"
  | .totalDeviceCount => "SoftRaid/TotalDevices"

/-- The `command_value` property, reading `self.parent.raid_status`. -/
def Sensor.command_value (rs : RaidStatus) : Sensor → Nat
  | .activeDeviceCount => rs.active_device_count
  | .degradedDeviceCount => rs.degraded_device_count
  | .failedDeviceCount => rs.inactive_device_count
  | .totalComponentCount => rs.total_component_count
  | .totalDeviceCount => rs.total_device_count

/-- The `output_type` property: `"integer"` for every monitor class. -/
def Sensor.output_type (_ : Sensor) : String := "integer"

/-- The `description` property. -/
def Sensor.description : Sensor → String
  | .activeDeviceCount => "Active device count"
  | .degradedDeviceCount => "Degraded device count"
  | .failedDeviceCount => "Failed device count"
  | .totalComponentCount => "Total component count"
  | .totalDeviceCount => "Total device count"

/-- The `min` property: `0` for every monitor class. -/
def Sensor.min (_ : Sensor) : Nat := 0

/-- The `max` property: the dynamic total device count for the bounded
counters, `0` for the two totals. -/
def Sensor.max (rs : RaidStatus) : Sensor → Nat
  | .activeDeviceCount => rs.total_device_count
  | .degradedDeviceCount => rs.total_device_count
  | .failedDeviceCount => rs.total_device_count
  | .totalComponentCount => 0
  | .totalDeviceCount => 0

/-- The `unit` property: `None` for every monitor class. -/
def Sensor.unit (_ : Sensor) : Option String := none

/-- `command_monitor_output`: `f"{self.command}\t{self.output_type}"`. -/
def Sensor.command_monitor_output (s : Sensor) : String :=
  s.command ++ "\t" ++ s.output_type

/-- The line printed by `command_info` (the `name?` handler):
`f"{description}\t{min}\t{max}"`, plus `\t{unit}` when a unit is defined. -/
def Sensor.command_info_output (rs : RaidStatus) (s : Sensor) : String :=
  match s.unit with
  | none => s.description ++ "\t" ++ toString s.min ++ "\t" ++ toString (Sensor.max rs s)
  | some u =>
    s.description ++ "\t" ++ toString s.min ++ "\t" ++ toString (Sensor.max rs s)
      ++ "\t" ++ u

/-! ## The daemon (daemon.py)

`KSysGuardDaemon` holds a `defaultdict` command table, the run flag and the
cached `RaidStatus` with its timestamp.  The values stored in the table are
callables; each—including the `defaultdict` fallback—is represented by a
`Handler` tag, and running a handler is `execHandler` below.
-/

inductive Handler where
  | monitors
  | quit
  | emptyInput
  | notFound
  | sensorValue (s : Sensor)
  | sensorInfo (s : Sensor)
deriving DecidableEq, Repr

/-- The command table: an insertion-ordered mapping, as a Python `dict`
underlies `collections.defaultdict`. -/
structure CommandTable where
  entries : List (String × Handler)
deriving DecidableEq, Repr

/-- `defaultdict` subscription: a missing key calls the default factory
(here `lambda: self.command_not_found_error`) and *inserts* the result into
the dictionary before returning it. -/
def CommandTable.lookupInsert (t : CommandTable) (key : String) :
    Handler × CommandTable :=
  match t.entries.lookup key with
  | some h => (h, t)
  | none => (Handler.notFound, ⟨t.entries ++ [(key, Handler.notFound)]⟩)

/-- `_get_all_monitor_classes`: `inspect.getmembers` returns the members of
the `command` module sorted by name; the filter keeps the proper
`AbstractMonitor` subclasses. -/
def _get_all_monitor_classes : List Sensor :=
  [.activeDeviceCount, .degradedDeviceCount, .failedDeviceCount,
   .totalComponentCount, .totalDeviceCount]

/-- `register_monitor`: adds the value entry under `cmd.command` and the
info entry under `f"{cmd.command}?"`. -/
def register_monitor (t : CommandTable) (s : Sensor) : CommandTable :=
  ⟨t.entries ++ [(s.command, Handler.sensorValue s),
                 (s.command ++ "?", Handler.sensorInfo s)]⟩

/-- `_build_command_table`: the three fixed entries, then one registration
per discovered monitor class. -/
def _build_command_table : CommandTable :=
  _get_all_monitor_classes.foldl register_monitor
    ⟨[("monitors", Handler.monitors), ("quit", Handler.quit),
      ("", Handler.emptyInput)]⟩

/-- The mutable state of a `KSysGuardDaemon` object (`self.args` is carried
separately as `min_interval_ms`). -/
structure DaemonState where
  command_table : CommandTable
  run_main_loop : Bool
  raid_status : RaidStatus
  raid_status_age : Nat
deriving DecidableEq, Repr

/-- Running one table entry: the lines it prints and the state it leaves. -/
def execHandler (h : Handler) (st : DaemonState) : List String × DaemonState :=
  match h with
  | .monitors =>
    -- `command_monitors` prints `command_monitor_output` for every table
    -- value that is an `AbstractMonitor` instance (the value entries only;
    -- the info entries are bound methods, not monitor instances)
    (st.command_table.entries.filterMap fun kv =>
      match kv.2 with
      | .sensorValue s => some s.command_monitor_output
      | _ => none, st)
  | .quit => ([], { st with run_main_loop := false })
  | .emptyInput => ([], st)
  | .notFound => (["UNKNOWN COMMAND"], st)
  | .sensorValue s => ([toString (s.command_value st.raid_status)], st)
  | .sensorInfo s => ([s.command_info_output st.raid_status], st)

/-- `self.command_table[read_command]()`: the `defaultdict` lookup (which may
insert the fallback) followed by the call. -/
def dispatchCommand (st : DaemonState) (cmd : String) :
    List String × DaemonState :=
  let (h, t2) := st.command_table.lookupInsert cmd
  execHandler h { st with command_table := t2 }

/-- `_preprocess_input_command` from `daemon.py`: strip trailing whitespace;
a remaining leading-whitespace line becomes the empty command; a non-empty
line is replaced by `read_command.split()[0]` (provably non-empty here, so
the Python subscript cannot raise). -/
def _preprocess_input_command (s : String) : String :=
  let r1 := pyRstrip s
  let r2 := if pyLstrip r1 ≠ r1 then "" else r1
  if r2 ≠ "" then ⟨(pySplitWs r2.data).headD []⟩ else r2

/-- The normalization policy as the specification words it: trailing
whitespace is stripped; if the result still has leading whitespace the whole
line is treated as the empty command; otherwise a non-empty line is
truncated to its first whitespace-delimited token. -/
def normalizeSpecLine (s : String) : String :=
  let t := pyRstrip s
  match t.data with
  | [] => ""
  | c :: _ =>
    if isPyWs c then ""
    else ⟨t.data.takeWhile fun x => !isPyWs x⟩

/-- `_read_raid_status`, with the clock reading and the `/proc/mdstat`
content passed in as oracles.  Returns the daemon state after the call and
whether an exception propagated (in Python the object survives a raised
exception unchanged, so the state is returned in both cases). -/
def _read_raid_status (min_interval_ms : Nat) (st : DaemonState) (now : Nat)
    (source : Option String) : DaemonState × Bool :=
  if st.raid_status_age + min_interval_ms * 1000000 ≤ now then
    match RaidStatus.ofProc source with
    | none => (st, true)
    | some rs => ({ st with raid_status := rs }, false)
  else (st, false)

/-! ## Concrete fixtures used by the theorems below -/

/-- A well-formed one-array `/proc/mdstat` text (block terminated by a blank
line). -/
def mdstatOneArray : String :=
  "md0 : active raid1 sda1[0] sdb1[1]\n1000 blocks [2/2] [UU]\n\n"

/-- A text whose only block carries the bracket field `[1/2]`: the captured
expected count is 1 and the captured current count is 2. -/
def mdstatInvertedCounts : String :=
  "md0 : active raid1 sda1[0]\n1000 blocks [1/2] [U_]\n\n"

/-- The initial daemon state right after `__init__` with an empty parsed
status and `raid_status_age = 0`. -/
def initialDaemonState : DaemonState :=
  { command_table := _build_command_table, run_main_loop := true,
    raid_status := ⟨[]⟩, raid_status_age := 0 }

/-! ## Claim theorems -/

/-- **C1** (code bug): the claim says the cache reparses only when at least
`min_interval` has elapsed since the last refresh, the most recent refresh
being what the next call is throttled against.  In the code,
`raid_status_age` is set once in `__init__` and never updated again, so the
throttle is relative to daemon start.  Evaluated at the failing input: a
daemon started at t = 0 ns with `min_interval_ms = 10` refreshes at
t = 20 ms (one device parsed), and a second call only 100 ns after that
refresh — far less than `min_interval` later — reparses again (the source
changed in between and the returned snapshot changes with it, to zero
devices), and the stored age still reads the start time. -/
theorem claim_C1_throttle_against_start_time_eval :
    ((_read_raid_status 10 initialDaemonState 20000000
        (some mdstatOneArray)).1.raid_status.total_device_count = 1) ∧
    ((_read_raid_status 10
        (_read_raid_status 10 initialDaemonState 20000000
          (some mdstatOneArray)).1
        20000100 (some "")).1.raid_status = ⟨[]⟩) ∧
    ((_read_raid_status 10 initialDaemonState 20000000
        (some mdstatOneArray)).1.raid_status_age
      = initialDaemonState.raid_status_age) := by
  decide

/-- **C2** is false as stated: dispatching the unregistered command
`"bogus"` does emit exactly the line `UNKNOWN COMMAND`, but the
`defaultdict` lookup inserts the missing key into the command table, so the
daemon state — which the claim says includes the command table — is not
unchanged. -/
theorem claim_C2_counterexample :
    (dispatchCommand initialDaemonState "bogus").1 = ["UNKNOWN COMMAND"] ∧
    (dispatchCommand initialDaemonState "bogus").2.command_table ≠
      initialDaemonState.command_table := by
  decide

/-- **C2** (amended): for every string not present in the command table,
dispatch emits exactly the single diagnostic line `UNKNOWN COMMAND` and
leaves the run flag, the cached snapshot and its age unchanged; the only
state change is that the `defaultdict` lookup appends the benign entry
mapping the unknown string to the not-found handler. -/
theorem claim_C2_unknown_command_dispatch :
    ∀ (st : DaemonState) (cmd : String),
      st.command_table.entries.lookup cmd = none →
      dispatchCommand st cmd =
        (["UNKNOWN COMMAND"],
         { st with command_table :=
            ⟨st.command_table.entries ++ [(cmd, Handler.notFound)]⟩ }) := by
  intro st cmd h
  simp [dispatchCommand, CommandTable.lookupInsert, h, execHandler]

/-- Witness for the amended **C2** at the unregistered command `"bogus"`. -/
theorem claim_C2_unknown_command_dispatch_witness :
    (initialDaemonState.command_table.entries.lookup "bogus" = none) ∧
    dispatchCommand initialDaemonState "bogus" =
      (["UNKNOWN COMMAND"],
       { initialDaemonState with command_table :=
          ⟨initialDaemonState.command_table.entries ++
            [("bogus", Handler.notFound)]⟩ }) :=
  ⟨by decide,
   claim_C2_unknown_command_dispatch initialDaemonState "bogus" (by decide)⟩

/-- **C3** is false as stated: the claim lists seven sensors, but
`command.py` defines — and `_build_command_table` registers — exactly five
monitor classes; there are no bitmap-device-count or bitmap-page sensors. -/
theorem claim_C3_counterexample :
    (_build_command_table.entries.filterMap fun kv =>
        match kv.2 with
        | Handler.sensorValue s => some s
        | _ => none) =
      [Sensor.activeDeviceCount, Sensor.degradedDeviceCount,
       Sensor.failedDeviceCount, Sensor.totalComponentCount,
       Sensor.totalDeviceCount] ∧
    (_build_command_table.entries.filterMap fun kv =>
        match kv.2 with
        | Handler.sensorValue s => some s
        | _ => none).length ≠ 7 := by
  decide

/-- **C3** (amended): after startup registration the command table holds the
three built-ins (`monitors`, `quit`, the empty command) followed by a value
entry and an info entry for exactly these five sensors, in the name-sorted
discovery order: active device count, degraded device count, failed
(inactive) device count, total component count, total device count. -/
theorem claim_C3_registered_commands :
    _build_command_table.entries =
      [("monitors", Handler.monitors), ("quit", Handler.quit),
       ("", Handler.emptyInput),
       ("SoftRaid/ActiveDevices", Handler.sensorValue Sensor.activeDeviceCount),
       ("SoftRaid/ActiveDevices?", Handler.sensorInfo Sensor.activeDeviceCount),
       ("SoftRaid/DegradedDevices", Handler.sensorValue Sensor.degradedDeviceCount),
       ("SoftRaid/DegradedDevices?", Handler.sensorInfo Sensor.degradedDeviceCount),
       ("SoftRaid/FailedDevices", Handler.sensorValue Sensor.failedDeviceCount),
       ("SoftRaid/FailedDevices?", Handler.sensorInfo Sensor.failedDeviceCount),
       ("SoftRaid/TotalComponents", Handler.sensorValue Sensor.totalComponentCount),
       ("SoftRaid/TotalComponents?", Handler.sensorInfo Sensor.totalComponentCount),
       ("SoftRaid/TotalDevices", Handler.sensorValue Sensor.totalDeviceCount),
       ("SoftRaid/TotalDevices?", Handler.sensorInfo Sensor.totalDeviceCount)] := by
  decide

/-- **C6** is false as stated: a text consisting of one block whose header
line matches nothing, but which is not terminated by a blank line, parses
successfully (to an empty device list) instead of failing — the trailing
unterminated block is silently dropped. -/
theorem claim_C6_counterexample :
    _parse_header_line "md0 bad" = none ∧
    _parse_device_info "md0 bad" = some [] := by
  decide

/-- **C7**: when a refresh is attempted (the throttle window has elapsed)
and constructing the new `RaidStatus` fails — source unreadable or
malformed — the error propagates out of `_read_raid_status` and the daemon
state, including the previously cached snapshot, is left exactly as it
was. -/
theorem claim_C7_failed_refresh_keeps_cache :
    ∀ (min_interval_ms : Nat) (st : DaemonState) (now : Nat)
      (source : Option String),
      st.raid_status_age + min_interval_ms * 1000000 ≤ now →
      RaidStatus.ofProc source = none →
      _read_raid_status min_interval_ms st now source = (st, true) := by
  intro mi st now src hnow hfail
  unfold _read_raid_status
  rw [if_pos hnow, hfail]

/-- Witness for **C7**: an unreadable source at a time past the throttle
window. -/
theorem claim_C7_failed_refresh_keeps_cache_witness :
    (initialDaemonState.raid_status_age + 10 * 1000000 ≤ 20000000) ∧
    RaidStatus.ofProc none = none ∧
    _read_raid_status 10 initialDaemonState 20000000 none =
      (initialDaemonState, true) :=
  ⟨by decide, rfl,
   claim_C7_failed_refresh_keeps_cache 10 initialDaemonState 20000000 none
     (by decide) rfl⟩

/-- **C8** is false as stated: the block-count grammar accepts any pair of
bracketed integers, so a block with `[1/2]` parses to a record whose
current component count (2) exceeds its expected component count (1). -/
theorem claim_C8_counterexample :
    (_parse_device_info mdstatInvertedCounts).map
        (List.map fun d => (d.expected_device_count, d.current_device_count)) =
      some [(1, 2)] ∧
    (_parse_device_info mdstatInvertedCounts).map
        (List.countP fun d =>
          d.expected_device_count < d.current_device_count) =
      some 1 := by
  decide

/-! ### Loop lemmas shared by the parsing claims -/

/-- Splitting the `_parse_device_info` loop at a list append. -/
theorem processLinesFrom_append (xs ys : List String) (st : ParseState) :
    processLinesFrom (xs ++ ys) st =
      match processLinesFrom xs st with
      | none => none
      | some st2 => processLinesFrom ys st2 := by
  induction xs generalizing st with
  | nil => simp [processLinesFrom]
  | cons l ls ih =>
    simp only [List.cons_append, processLinesFrom]
    cases processLine st l with
    | none => rfl
    | some st2 => exact ih st2

/-- Over lines that are neither blank (after stripping) nor ignorable, the
loop only accumulates: it never yields a device and never fails. -/
theorem processLinesFrom_accumulates (bs : List String) :
    ∀ st : ParseState,
      (∀ l ∈ bs, pyStrip l ≠ "" ∧ _should_skip_line (pyStrip l) = false) →
      processLinesFrom bs st =
        some ⟨st.block_lines ++ bs.map pyStrip, st.out⟩ := by
  induction bs with
  | nil => intro st _h; simp [processLinesFrom]
  | cons l ls ih =>
    intro st h
    obtain ⟨hl, hskip⟩ := h l (by simp)
    have hrest : ∀ x ∈ ls, pyStrip x ≠ "" ∧ _should_skip_line (pyStrip x) = false :=
      fun x hx => h x (List.mem_cons_of_mem _ hx)
    have hstep : processLine st l =
        some { st with block_lines := st.block_lines ++ [pyStrip l] } := by
      simp [processLine, hskip, hl]
    simp [processLinesFrom, hstep, ih _ hrest]

/-- **C10**: whenever the loop meets a blank (or whitespace-only) line while
no block lines are accumulated, `RaidDeviceInfo` is invoked with zero
arguments (a `TypeError`), so the whole parse fails: the parse function is
not total over such inputs. -/
theorem claim_C10_blank_line_empty_accumulator_fails :
    ∀ (st : ParseState) (raw : String) (rest : List String),
      st.block_lines = [] → pyStrip raw = "" →
      processLinesFrom (raw :: rest) st = none := by
  intro st raw rest hacc hblank
  have hskip : _should_skip_line "" = false := by decide
  simp [processLinesFrom, processLine, hblank, hskip, hacc,
        raidDeviceInfoOfBlock]

/-- Witness for **C10**: an input consisting of a single blank line (e.g. a
text beginning with a blank line once headers are ignored). -/
theorem claim_C10_blank_line_empty_accumulator_fails_witness :
    ((⟨[], []⟩ : ParseState).block_lines = []) ∧ pyStrip "" = "" ∧
    processLinesFrom [""] ⟨[], []⟩ = none :=
  ⟨rfl, rfl,
   claim_C10_blank_line_empty_accumulator_fails ⟨[], []⟩ "" [] rfl rfl⟩

/-- **C9**: a run of lines none of which is blank after stripping — in
particular a final device block not terminated by a blank line — never
contributes a device: the loop succeeds and its output list is exactly what
it was before the run, so the trailing block is silently dropped (an input
consisting of only such a block parses to zero devices). -/
theorem claim_C9_unterminated_trailing_block_dropped :
    ∀ (bs : List String) (st : ParseState),
      (∀ l ∈ bs, pyStrip l ≠ "") →
      (processLinesFrom bs st).map ParseState.out = some st.out := by
  intro bs
  induction bs with
  | nil => intro st _h; simp [processLinesFrom]
  | cons l ls ih =>
    intro st h
    have hl : pyStrip l ≠ "" := h l (by simp)
    have hrest : ∀ x ∈ ls, pyStrip x ≠ "" := fun x hx => h x (by simp [hx])
    by_cases hskip : _should_skip_line (pyStrip l)
    · have hstep : processLine st l = some st := by simp [processLine, hskip]
      simpa [processLinesFrom, hstep] using ih st hrest
    · have hstep : processLine st l =
          some { st with block_lines := st.block_lines ++ [pyStrip l] } := by
        simp [processLine, hskip, hl]
      simpa [processLinesFrom, hstep] using
        ih { st with block_lines := st.block_lines ++ [pyStrip l] } hrest

/-- Witness for **C9**: a well-formed two-line block with no terminating
blank line parses to zero devices. -/
theorem claim_C9_unterminated_trailing_block_dropped_witness :
    ((["md0 : active raid1 sda1[0] sdb1[1]",
       "1000 blocks [2/2] [UU]"].all fun l => pyStrip l ≠ "") = true) ∧
    (processLinesFrom
        ["md0 : active raid1 sda1[0] sdb1[1]", "1000 blocks [2/2] [UU]"]
        ⟨[], []⟩).map ParseState.out = some [] :=
  ⟨by decide,
   claim_C9_unterminated_trailing_block_dropped
     ["md0 : active raid1 sda1[0] sdb1[1]", "1000 blocks [2/2] [UU]"]
     ⟨[], []⟩ (by decide)⟩

/-- A failed header parse fails the whole constructor. -/
theorem ofLines_none_of_header_fail (l1 l2 : String) (l3 l4 : Option String)
    (h : _parse_header_line l1 = none) :
    RaidDeviceInfo.ofLines l1 l2 l3 l4 = none := by
  simp [RaidDeviceInfo.ofLines, h]

/-- A failed block-count parse fails the whole constructor. -/
theorem ofLines_none_of_count_fail (l1 l2 : String) (l3 l4 : Option String)
    (h : _parse_block_count_line l2 = none) :
    RaidDeviceInfo.ofLines l1 l2 l3 l4 = none := by
  cases hh : _parse_header_line l1 with
  | none => simp [RaidDeviceInfo.ofLines, hh]
  | some tup => simp [RaidDeviceInfo.ofLines, hh, h]

/-- Destructuring a successful `RaidDeviceInfo` construction into its four
stages. -/
theorem ofLines_success (l1 l2 : String) (l3 l4 : Option String)
    (r : RaidDeviceInfo) (h : RaidDeviceInfo.ofLines l1 l2 l3 l4 = some r) :
    ∃ hdr cnt r3,
      _parse_header_line l1 = some hdr ∧
      _parse_block_count_line l2 = some cnt ∧
      applyLine3 (baseRecord hdr cnt) l3 = some r3 ∧
      applyLine4 r3 l4 = some r := by
  cases hh : _parse_header_line l1 with
  | none =>
    rw [ofLines_none_of_header_fail l1 l2 l3 l4 hh] at h
    exact absurd h (by simp)
  | some hdr =>
  cases hc : _parse_block_count_line l2 with
  | none =>
    rw [ofLines_none_of_count_fail l1 l2 l3 l4 hc] at h
    exact absurd h (by simp)
  | some cnt =>
  simp only [RaidDeviceInfo.ofLines, hh, hc] at h
  cases h3 : applyLine3 (baseRecord hdr cnt) l3 with
  | none => rw [h3] at h; exact absurd h (by simp)
  | some r3 =>
    rw [h3] at h
    exact ⟨hdr, cnt, r3, rfl, rfl, h3, h⟩

/-- A block whose header line fails to match, or whose second line fails the
block-count grammar, never constructs a device (and neither does a block
with fewer than two or more than four lines). -/
theorem raidDeviceInfoOfBlock_none_of_malformed (ls : List String)
    (hne : ls ≠ [])
    (hbad : _parse_header_line (ls.headD "") = none ∨
            ∃ l2, ls[1]? = some l2 ∧ _parse_block_count_line l2 = none) :
    raidDeviceInfoOfBlock ls = none := by
  rcases ls with _ | ⟨a, _ | ⟨b, _ | ⟨c, _ | ⟨d, _ | ⟨e, rest⟩⟩⟩⟩⟩
  · exact absurd rfl hne
  · rfl
  · rcases hbad with hh | ⟨l2, hl2, hc⟩
    · exact ofLines_none_of_header_fail a b none none (by simpa using hh)
    · have hb : b = l2 := by simpa using hl2
      exact ofLines_none_of_count_fail a b none none (hb ▸ hc)
  · rcases hbad with hh | ⟨l2, hl2, hc⟩
    · exact ofLines_none_of_header_fail a b (some c) none (by simpa using hh)
    · have hb : b = l2 := by simpa using hl2
      exact ofLines_none_of_count_fail a b (some c) none (hb ▸ hc)
  · rcases hbad with hh | ⟨l2, hl2, hc⟩
    · exact ofLines_none_of_header_fail a b (some c) (some d) (by simpa using hh)
    · have hb : b = l2 := by simpa using hl2
      exact ofLines_none_of_count_fail a b (some c) (some d) (hb ▸ hc)
  · rfl

/-- **C6** (amended): the claim holds for every *blank-line-terminated*
block: if, with an empty accumulator, the loop meets a run of significant
lines whose first line fails the header grammar or whose second line fails
the block-count grammar, followed by a blank line, the whole parse fails
with an error and no device list is produced.  (The counterexample shows
the original claim fails for a malformed *unterminated* trailing block,
which is silently dropped instead.) -/
theorem claim_C6_malformed_terminated_block_fails :
    ∀ (bs rest : List String) (st : ParseState),
      st.block_lines = [] → bs ≠ [] →
      (∀ l ∈ bs, pyStrip l ≠ "" ∧ _should_skip_line (pyStrip l) = false) →
      (_parse_header_line (pyStrip (bs.headD "")) = none ∨
       ∃ l2, bs[1]? = some l2 ∧ _parse_block_count_line (pyStrip l2) = none) →
      processLinesFrom (bs ++ "" :: rest) st = none := by
  intro bs rest st hacc hne h hbad
  rw [processLinesFrom_append, processLinesFrom_accumulates bs st h, hacc]
  have hblock : raidDeviceInfoOfBlock (bs.map pyStrip) = none := by
    apply raidDeviceInfoOfBlock_none_of_malformed
    · simpa using hne
    · rcases hbad with hh | ⟨l2, hl2, hc⟩
      · left
        cases bs with
        | nil => exact absurd rfl hne
        | cons b bs2 => simpa using hh
      · right
        refine ⟨pyStrip l2, ?_, hc⟩
        rw [List.getElem?_map, hl2]
        rfl
  have hskip : _should_skip_line "" = false := by decide
  have hps : pyStrip "" = "" := rfl
  simp [processLinesFrom, processLine, hps, hskip, hblock]

/-- Witness for the amended **C6**: a terminated two-line block whose header
line matches nothing. -/
theorem claim_C6_malformed_terminated_block_fails_witness :
    (_parse_header_line (pyStrip "md0 bad header") = none) ∧
    ((["md0 bad header", "1000 blocks [2/2] [UU]"].all fun l =>
        pyStrip l ≠ "" ∧ _should_skip_line (pyStrip l) = false) = true) ∧
    processLinesFrom
        (["md0 bad header", "1000 blocks [2/2] [UU]"] ++ "" :: [])
        ⟨[], []⟩ = none :=
  ⟨by decide, by decide,
   claim_C6_malformed_terminated_block_fails
     ["md0 bad header", "1000 blocks [2/2] [UU]"] [] ⟨[], []⟩ rfl
     (by decide) (by decide) (Or.inl (by decide))⟩

/-! ### Behaviour of the optional-line steps -/

/-- A successful `applyBitmapLine` sets `has_bitmap`, stores exactly the
four captured bitmap values, and touches nothing else. -/
theorem applyBitmapLine_spec (r r2 : RaidDeviceInfo) (l : String)
    (h : applyBitmapLine r l = some r2) :
    r2.has_bitmap = true ∧
    _parse_bitmap_line l =
      some (r2.bitmap_used_pages, r2.bitmap_total_pages,
            r2.bitmap_used_size_kb, r2.bitmap_chunk_size_kb) ∧
    r2.current_activity = r.current_activity ∧
    r2.progress_percent_tenths = r.progress_percent_tenths ∧
    r2.currently_processed_block = r.currently_processed_block ∧
    r2.activity_eta_minutes_tenths = r.activity_eta_minutes_tenths ∧
    r2.speed_kbytes_per_sec = r.speed_kbytes_per_sec ∧
    r2.block_count = r.block_count ∧
    r2.superblock_format = r.superblock_format ∧
    r2.chunk_size = r.chunk_size ∧
    r2.expected_device_count = r.expected_device_count ∧
    r2.current_device_count = r.current_device_count := by
  unfold applyBitmapLine at h
  cases hb : _parse_bitmap_line l with
  | none => rw [hb] at h; exact absurd h (by simp)
  | some q =>
    obtain ⟨up, tp, us, ck⟩ := q
    rw [hb] at h
    injection h with h2
    subst h2
    exact ⟨rfl, rfl, rfl, rfl, rfl, rfl, rfl, rfl, rfl, rfl, rfl, rfl⟩

/-- A third line that starts with `"bitmap"` takes the bitmap branch:
`has_bitmap` becomes true and the activity fields are untouched. -/
theorem applyLine3_bitmap_spec (r r3 : RaidDeviceInfo) (l3 : String)
    (hpre : pyStartswith l3 "bitmap" = true)
    (h : applyLine3 r (some l3) = some r3) :
    r3.has_bitmap = true ∧
    r3.current_activity = r.current_activity ∧
    r3.progress_percent_tenths = r.progress_percent_tenths ∧
    r3.currently_processed_block = r.currently_processed_block ∧
    r3.activity_eta_minutes_tenths = r.activity_eta_minutes_tenths ∧
    r3.speed_kbytes_per_sec = r.speed_kbytes_per_sec := by
  have hne : l3 ≠ "" := by
    intro he
    rw [he] at hpre
    exact absurd hpre (by decide)
  simp only [applyLine3] at h
  rw [if_neg hne, if_pos hpre] at h
  obtain ⟨h1, _, h3, h4, h5, h6, h7, _⟩ := applyBitmapLine_spec r r3 l3 h
  exact ⟨h1, h3, h4, h5, h6, h7⟩

/-- A non-empty third line that does not start with `"bitmap"` takes the
activity branch: the activity fields are exactly the captured values and the
bitmap fields are untouched. -/
theorem applyLine3_activity_spec (r r3 : RaidDeviceInfo) (l3 : String)
    (hne : l3 ≠ "") (hpre : pyStartswith l3 "bitmap" = false)
    (h : applyLine3 r (some l3) = some r3) :
    _parse_activity_line l3 =
      some (r3.current_activity, r3.progress_percent_tenths,
            r3.currently_processed_block, r3.activity_eta_minutes_tenths,
            r3.speed_kbytes_per_sec) ∧
    r3.has_bitmap = r.has_bitmap ∧
    r3.bitmap_used_pages = r.bitmap_used_pages ∧
    r3.bitmap_total_pages = r.bitmap_total_pages ∧
    r3.bitmap_used_size_kb = r.bitmap_used_size_kb ∧
    r3.bitmap_chunk_size_kb = r.bitmap_chunk_size_kb := by
  simp only [applyLine3] at h
  rw [if_neg hne, if_neg (by simp [hpre])] at h
  cases ha : _parse_activity_line l3 with
  | none => rw [ha] at h; exact absurd h (by simp)
  | some q =>
    obtain ⟨mode, prog, cb, eta, sp⟩ := q
    rw [ha] at h
    injection h with h2
    subst h2
    exact ⟨rfl, rfl, rfl, rfl, rfl, rfl⟩

/-- Whatever `applyLine3` does, the header and block-count fields are
untouched. -/
theorem applyLine3_counts (r r3 : RaidDeviceInfo) (l3 : Option String)
    (h : applyLine3 r l3 = some r3) :
    r3.block_count = r.block_count ∧
    r3.superblock_format = r.superblock_format ∧
    r3.chunk_size = r.chunk_size ∧
    r3.expected_device_count = r.expected_device_count ∧
    r3.current_device_count = r.current_device_count := by
  cases l3 with
  | none =>
    injection h with h2
    subst h2
    exact ⟨rfl, rfl, rfl, rfl, rfl⟩
  | some l3 =>
    simp only [applyLine3] at h
    by_cases he : l3 = ""
    · rw [if_pos he] at h
      injection h with h2
      subst h2
      exact ⟨rfl, rfl, rfl, rfl, rfl⟩
    · rw [if_neg he] at h
      by_cases hpre : pyStartswith l3 "bitmap"
      · rw [if_pos hpre] at h
        obtain ⟨_, _, _, _, _, _, _, c1, c2, c3, c4, c5⟩ :=
          applyBitmapLine_spec r r3 l3 h
        exact ⟨c1, c2, c3, c4, c5⟩
      · rw [if_neg hpre] at h
        cases ha : _parse_activity_line l3 with
        | none => rw [ha] at h; exact absurd h (by simp)
        | some q =>
          obtain ⟨mode, prog, cb, eta, sp⟩ := q
          rw [ha] at h
          injection h with h2
          subst h2
          exact ⟨rfl, rfl, rfl, rfl, rfl⟩

/-- `applyLine4` either leaves the record alone (no or empty fourth line) or
runs the bitmap step; the activity, header and block-count fields survive in
either case, and `has_bitmap` can only be turned on. -/
theorem applyLine4_spec (r3 r : RaidDeviceInfo) (l4 : Option String)
    (h : applyLine4 r3 l4 = some r) :
    (r.has_bitmap = r3.has_bitmap ∨ r.has_bitmap = true) ∧
    r.current_activity = r3.current_activity ∧
    r.progress_percent_tenths = r3.progress_percent_tenths ∧
    r.currently_processed_block = r3.currently_processed_block ∧
    r.activity_eta_minutes_tenths = r3.activity_eta_minutes_tenths ∧
    r.speed_kbytes_per_sec = r3.speed_kbytes_per_sec ∧
    r.block_count = r3.block_count ∧
    r.superblock_format = r3.superblock_format ∧
    r.chunk_size = r3.chunk_size ∧
    r.expected_device_count = r3.expected_device_count ∧
    r.current_device_count = r3.current_device_count := by
  cases l4 with
  | none =>
    injection h with h2
    subst h2
    exact ⟨Or.inl rfl, rfl, rfl, rfl, rfl, rfl, rfl, rfl, rfl, rfl, rfl⟩
  | some l4 =>
    simp only [applyLine4] at h
    by_cases he : l4 = ""
    · rw [if_pos he] at h
      injection h with h2
      subst h2
      exact ⟨Or.inl rfl, rfl, rfl, rfl, rfl, rfl, rfl, rfl, rfl, rfl, rfl⟩
    · rw [if_neg he] at h
      obtain ⟨h1, _, h3, h4, h5, h6, h7, c1, c2, c3, c4, c5⟩ :=
        applyBitmapLine_spec r3 r l4 h
      exact ⟨Or.inr h1, h3, h4, h5, h6, h7, c1, c2, c3, c4, c5⟩

/-- **C8** (amended): the expected and current component counts of every
constructed `RaidDeviceInfo` are exactly the two integers captured from the
`[expected/current]` field of its block-count line — the grammar imposes no
ordering between them, so `current_component_count <= expected_component_count`
holds precisely for inputs whose bracket field satisfies it, and is not an
invariant of all accepted inputs. -/
theorem claim_C8_counts_copied_from_count_line :
    ∀ (l1 l2 : String) (l3 l4 : Option String) (r : RaidDeviceInfo),
      RaidDeviceInfo.ofLines l1 l2 l3 l4 = some r →
      _parse_block_count_line l2 =
        some (r.block_count, r.superblock_format, r.chunk_size,
              r.expected_device_count, r.current_device_count) := by
  intro l1 l2 l3 l4 r h
  obtain ⟨hdr, cnt, r3, hh, hc, h3, h4⟩ := ofLines_success l1 l2 l3 l4 r h
  obtain ⟨b1, b2, b3, b4, b5⟩ := applyLine3_counts _ r3 l3 h3
  obtain ⟨_, _, _, _, _, _, c1, c2, c3, c4, c5⟩ := applyLine4_spec r3 r l4 h4
  rw [hc, c1, c2, c3, c4, c5, b1, b2, b3, b4, b5]
  obtain ⟨md, act, lvl, comps⟩ := hdr
  obtain ⟨bc, sbf, cks, expc, cur⟩ := cnt
  rfl

/-- Witness record for the amended **C8**: the parse of the `[1/2]` block. -/
def invertedRecord : RaidDeviceInfo :=
  { md_device := "0", is_active := true, raid_level := "raid1",
    component_devices := ["sda1[0]"], block_count := 1000,
    superblock_format := none, chunk_size := none,
    expected_device_count := 1, current_device_count := 2,
    current_activity := "idle", progress_percent_tenths := 0,
    currently_processed_block := 0, activity_eta_minutes_tenths := 0,
    speed_kbytes_per_sec := 0, has_bitmap := false, bitmap_used_pages := 0,
    bitmap_total_pages := 0, bitmap_used_size_kb := 0,
    bitmap_chunk_size_kb := 0 }

/-- Witness for the amended **C8** at the two-line `[1/2]` block. -/
theorem claim_C8_counts_copied_from_count_line_witness :
    RaidDeviceInfo.ofLines "md0 : active raid1 sda1[0]" "1000 blocks [1/2] [U_]"
        none none = some invertedRecord ∧
    _parse_block_count_line "1000 blocks [1/2] [U_]" =
      some (invertedRecord.block_count, invertedRecord.superblock_format,
            invertedRecord.chunk_size, invertedRecord.expected_device_count,
            invertedRecord.current_device_count) :=
  ⟨by decide,
   claim_C8_counts_copied_from_count_line "md0 : active raid1 sda1[0]"
     "1000 blocks [1/2] [U_]" none none invertedRecord (by decide)⟩

/-! ### Line-normalization lemmas (C4) -/

/-- `dropWhile` strictly shortens a list whose head satisfies the predicate. -/
theorem dropWhile_cons_pos_ne (p : Char → Bool) (c : Char) (cs : List Char)
    (h : p c = true) : (c :: cs).dropWhile p ≠ c :: cs := by
  intro he
  have h1 : (c :: cs).dropWhile p = cs.dropWhile p := by
    simp [List.dropWhile_cons, h]
  have h2 : (cs.dropWhile p).length ≤ cs.length :=
    (cs.dropWhile_sublist p).length_le
  rw [h1] at he
  have h3 := congrArg List.length he
  simp at h3
  omega

/-- The first token produced by `str.split()` extends the pending token with
the longest non-whitespace prefix. -/
theorem splitWsAux_headD (cs : List Char) :
    ∀ tok : List Char, tok ≠ [] →
      (splitWsAux cs tok).headD [] =
        tok.reverse ++ cs.takeWhile (fun x => !isPyWs x) := by
  induction cs with
  | nil =>
    intro tok h
    simp [splitWsAux, List.isEmpty_iff, h]
  | cons c cs ih =>
    intro tok h
    by_cases hc : isPyWs c
    · simp [splitWsAux, hc, List.isEmpty_iff, h, List.takeWhile_cons]
    · simp only [splitWsAux, hc, Bool.false_eq_true, if_false]
      rw [ih (c :: tok) (by simp)]
      simp [List.takeWhile_cons, hc]

/-- **C4**: `_preprocess_input_command` implements exactly the normalization
policy the specification words: trailing whitespace is stripped; a line that
still has leading whitespace becomes the empty command (no output, not an
error); a remaining non-empty line is truncated to its first
whitespace-delimited token, discarding everything after it. -/
theorem claim_C4_line_normalization :
    ∀ s : String, _preprocess_input_command s = normalizeSpecLine s := by
  intro s
  simp only [_preprocess_input_command, normalizeSpecLine]
  rcases hd : (pyRstrip s).data with _ | ⟨c, cs⟩
  · have hr : pyRstrip s = "" := String.ext (by rw [hd])
    rw [hr]
    decide
  · by_cases hws : isPyWs c
    · have hlne : pyLstrip (pyRstrip s) ≠ pyRstrip s := by
        intro he
        have hdata : (pyRstrip s).data.dropWhile isPyWs = (pyRstrip s).data :=
          congrArg String.data he
        rw [hd] at hdata
        exact dropWhile_cons_pos_ne isPyWs c cs hws hdata
      rw [if_pos hlne]
      simp [hws]
    · have hleq : pyLstrip (pyRstrip s) = pyRstrip s := by
        apply String.ext
        show (pyRstrip s).data.dropWhile isPyWs = (pyRstrip s).data
        rw [hd]
        simp [List.dropWhile_cons, hws]
      have hne : pyRstrip s ≠ "" := by
        intro he
        rw [he] at hd
        exact List.noConfusion hd
      have e2 : (if pyLstrip (pyRstrip s) ≠ pyRstrip s then "" else pyRstrip s)
          = pyRstrip s := if_neg fun hcon => hcon hleq
      rw [e2, if_pos hne, hd]
      rw [show pySplitWs (c :: cs) = splitWsAux cs [c] by
            simp [pySplitWs, splitWsAux, hws]]
      rw [splitWsAux_headD cs [c] (by simp)]
      simp [hws, List.takeWhile_cons]

/-! ### Optional-line disambiguation (C5) -/

/-- A bitmap-prefixed third line: bitmap on, activity fields untouched
(hence still the idle defaults of the base record). -/
theorem c5_bitmap_third_line (l1 l2 l3 : String) (l4 : Option String)
    (r : RaidDeviceInfo) (hpre : pyStartswith l3 "bitmap" = true)
    (h : RaidDeviceInfo.ofLines l1 l2 (some l3) l4 = some r) :
    r.has_bitmap = true ∧ r.current_activity = "idle" ∧
    r.progress_percent_tenths = 0 ∧ r.currently_processed_block = 0 ∧
    r.activity_eta_minutes_tenths = 0 ∧ r.speed_kbytes_per_sec = 0 := by
  obtain ⟨hdr, cnt, r3, hh, hc, h3, h4⟩ := ofLines_success _ _ _ _ r h
  obtain ⟨g1, g2, g3, g4, g5, g6⟩ := applyLine3_bitmap_spec _ r3 l3 hpre h3
  obtain ⟨d1, d2, d3, d4, d5, d6, _⟩ := applyLine4_spec r3 r l4 h4
  obtain ⟨md, act, lvl, comps⟩ := hdr
  obtain ⟨bc, sbf, cks, expc, cur⟩ := cnt
  refine ⟨?_, ?_, ?_, ?_, ?_, ?_⟩
  · rcases d1 with d1 | d1
    · rw [d1, g1]
    · exact d1
  · rw [d2, g2]; rfl
  · rw [d3, g3]; rfl
  · rw [d4, g4]; rfl
  · rw [d5, g5]; rfl
  · rw [d6, g6]; rfl

/-- An activity third line and no fourth line: no bitmap, activity fields
populated from the line. -/
theorem c5_activity_third_line_only (l1 l2 l3 : String) (r : RaidDeviceInfo)
    (hne : l3 ≠ "") (hpre : pyStartswith l3 "bitmap" = false)
    (h : RaidDeviceInfo.ofLines l1 l2 (some l3) none = some r) :
    r.has_bitmap = false ∧
    _parse_activity_line l3 =
      some (r.current_activity, r.progress_percent_tenths,
            r.currently_processed_block, r.activity_eta_minutes_tenths,
            r.speed_kbytes_per_sec) := by
  obtain ⟨hdr, cnt, r3, hh, hc, h3, h4⟩ := ofLines_success _ _ _ _ r h
  have hr : r3 = r := by simpa [applyLine4] using h4
  subst hr
  obtain ⟨a1, a2, a3, a4, a5, a6⟩ :=
    applyLine3_activity_spec _ r3 l3 hne hpre h3
  obtain ⟨md, act, lvl, comps⟩ := hdr
  obtain ⟨bc, sbf, cks, expc, cur⟩ := cnt
  exact ⟨by rw [a2]; rfl, a1⟩

/-- An activity third line and a (non-empty) bitmap fourth line: both the
activity fields and the bitmap fields are populated and `has_bitmap` is on. -/
theorem c5_activity_and_bitmap_lines (l1 l2 l3 l4 : String)
    (r : RaidDeviceInfo) (hne3 : l3 ≠ "")
    (hpre : pyStartswith l3 "bitmap" = false) (hne4 : l4 ≠ "")
    (h : RaidDeviceInfo.ofLines l1 l2 (some l3) (some l4) = some r) :
    r.has_bitmap = true ∧
    _parse_activity_line l3 =
      some (r.current_activity, r.progress_percent_tenths,
            r.currently_processed_block, r.activity_eta_minutes_tenths,
            r.speed_kbytes_per_sec) ∧
    _parse_bitmap_line l4 =
      some (r.bitmap_used_pages, r.bitmap_total_pages,
            r.bitmap_used_size_kb, r.bitmap_chunk_size_kb) := by
  obtain ⟨hdr, cnt, r3, hh, hc, h3, h4⟩ := ofLines_success _ _ _ _ r h
  have h4b : applyBitmapLine r3 l4 = some r := by
    simpa [applyLine4, hne4] using h4
  obtain ⟨a1, a2, a3, a4, a5, a6⟩ :=
    applyLine3_activity_spec _ r3 l3 hne3 hpre h3
  obtain ⟨b1, b2, b3, b4, b5, b6, b7, _⟩ := applyBitmapLine_spec r3 r l4 h4b
  refine ⟨b1, ?_, b2⟩
  rw [b3, b4, b5, b6, b7]
  exact a1

/-- A two-line block: everything keeps the defaults of the base record. -/
theorem c5_two_line_block (l1 l2 : String) (r : RaidDeviceInfo)
    (h : RaidDeviceInfo.ofLines l1 l2 none none = some r) :
    r.has_bitmap = false ∧ r.current_activity = "idle" ∧
    r.progress_percent_tenths = 0 ∧ r.currently_processed_block = 0 ∧
    r.activity_eta_minutes_tenths = 0 ∧ r.speed_kbytes_per_sec = 0 := by
  obtain ⟨hdr, cnt, r3, hh, hc, h3, h4⟩ := ofLines_success _ _ _ _ r h
  have e3 : baseRecord hdr cnt = r3 := by simpa [applyLine3] using h3
  have e4 : r3 = r := by simpa [applyLine4] using h4
  subst e4
  obtain ⟨md, act, lvl, comps⟩ := hdr
  obtain ⟨bc, sbf, cks, expc, cur⟩ := cnt
  rw [← e3]
  exact ⟨rfl, rfl, rfl, rfl, rfl, rfl⟩

/-- **C5**: for every successfully constructed block record — (a) if the
third significant line begins with the `bitmap` prefix then `has_bitmap` is
true and every activity field keeps its idle default (whether or not a
fourth line follows); (b) if the third line is a progress-bar activity line
(non-empty, not bitmap-prefixed) and there is no fourth line, `has_bitmap`
is false and the activity fields hold exactly the captured values; (c) if a
fourth (bitmap) line is also present, both the activity fields and the
bitmap fields are populated and `has_bitmap` is true; (d) a two-line block
yields bitmap absent and idle activity defaults. -/
theorem claim_C5_optional_line_disambiguation :
    ∀ (l1 l2 l3 l4 : String) (r : RaidDeviceInfo),
      ((RaidDeviceInfo.ofLines l1 l2 (some l3) none = some r ∨
        RaidDeviceInfo.ofLines l1 l2 (some l3) (some l4) = some r) →
        pyStartswith l3 "bitmap" = true →
        r.has_bitmap = true ∧ r.current_activity = "idle" ∧
        r.progress_percent_tenths = 0 ∧ r.currently_processed_block = 0 ∧
        r.activity_eta_minutes_tenths = 0 ∧ r.speed_kbytes_per_sec = 0) ∧
      (RaidDeviceInfo.ofLines l1 l2 (some l3) none = some r →
        l3 ≠ "" → pyStartswith l3 "bitmap" = false →
        r.has_bitmap = false ∧
        _parse_activity_line l3 =
          some (r.current_activity, r.progress_percent_tenths,
                r.currently_processed_block, r.activity_eta_minutes_tenths,
                r.speed_kbytes_per_sec)) ∧
      (RaidDeviceInfo.ofLines l1 l2 (some l3) (some l4) = some r →
        l3 ≠ "" → pyStartswith l3 "bitmap" = false → l4 ≠ "" →
        r.has_bitmap = true ∧
        _parse_activity_line l3 =
          some (r.current_activity, r.progress_percent_tenths,
                r.currently_processed_block, r.activity_eta_minutes_tenths,
                r.speed_kbytes_per_sec) ∧
        _parse_bitmap_line l4 =
          some (r.bitmap_used_pages, r.bitmap_total_pages,
                r.bitmap_used_size_kb, r.bitmap_chunk_size_kb)) ∧
      (RaidDeviceInfo.ofLines l1 l2 none none = some r →
        r.has_bitmap = false ∧ r.current_activity = "idle" ∧
        r.progress_percent_tenths = 0 ∧ r.currently_processed_block = 0 ∧
        r.activity_eta_minutes_tenths = 0 ∧ r.speed_kbytes_per_sec = 0) := by
  intro l1 l2 l3 l4 r
  refine ⟨?_, ?_, ?_, ?_⟩
  · intro hor hpre
    rcases hor with h | h
    · exact c5_bitmap_third_line l1 l2 l3 none r hpre h
    · exact c5_bitmap_third_line l1 l2 l3 (some l4) r hpre h
  · intro h hne hpre
    exact c5_activity_third_line_only l1 l2 l3 r hne hpre h
  · intro h hne3 hpre hne4
    exact c5_activity_and_bitmap_lines l1 l2 l3 l4 r hne3 hpre hne4 h
  · intro h
    exact c5_two_line_block l1 l2 r h

/-! ### Demo fixture lines and records for the C5 witness -/

def demoHeaderLine : String := "md0 : active raid1 sda1[0] sdb1[1]"
def demoCountLine : String := "1000 blocks [2/2] [UU]"
def demoBitmapLine : String := "bitmap: 3/8 pages [9KB], 64KB chunk"
def demoActivityLine : String :=
  "[==>..........]  resync = 5.0% (1/100) finish=1.5min speed=100K/sec"

def demoPlainRec : RaidDeviceInfo :=
  { md_device := "0", is_active := true, raid_level := "raid1",
    component_devices := ["sda1[0]", "sdb1[1]"], block_count := 1000,
    superblock_format := none, chunk_size := none,
    expected_device_count := 2, current_device_count := 2,
    current_activity := "idle", progress_percent_tenths := 0,
    currently_processed_block := 0, activity_eta_minutes_tenths := 0,
    speed_kbytes_per_sec := 0, has_bitmap := false, bitmap_used_pages := 0,
    bitmap_total_pages := 0, bitmap_used_size_kb := 0,
    bitmap_chunk_size_kb := 0 }

def demoBitmapRec : RaidDeviceInfo :=
  { demoPlainRec with
    has_bitmap := true, bitmap_used_pages := 3, bitmap_total_pages := 8,
    bitmap_used_size_kb := 9, bitmap_chunk_size_kb := 64 }

def demoActivityRec : RaidDeviceInfo :=
  { demoPlainRec with
    current_activity := "resync", progress_percent_tenths := 50,
    currently_processed_block := 1, activity_eta_minutes_tenths := 15,
    speed_kbytes_per_sec := 100 }

def demoBothRec : RaidDeviceInfo :=
  { demoActivityRec with
    has_bitmap := true, bitmap_used_pages := 3, bitmap_total_pages := 8,
    bitmap_used_size_kb := 9, bitmap_chunk_size_kb := 64 }

/-- Witness for **C5**, applying each conjunct at a concrete block: a bitmap
third line, an activity third line alone, an activity third line plus a
bitmap fourth line, and a plain two-line block. -/
theorem claim_C5_optional_line_disambiguation_witness :
    (RaidDeviceInfo.ofLines demoHeaderLine demoCountLine
        (some demoBitmapLine) none = some demoBitmapRec) ∧
    (demoBitmapRec.has_bitmap = true ∧ demoBitmapRec.current_activity = "idle" ∧
     demoBitmapRec.progress_percent_tenths = 0 ∧
     demoBitmapRec.currently_processed_block = 0 ∧
     demoBitmapRec.activity_eta_minutes_tenths = 0 ∧
     demoBitmapRec.speed_kbytes_per_sec = 0) ∧
    (RaidDeviceInfo.ofLines demoHeaderLine demoCountLine
        (some demoActivityLine) none = some demoActivityRec) ∧
    (demoActivityRec.has_bitmap = false ∧
     _parse_activity_line demoActivityLine =
       some (demoActivityRec.current_activity,
             demoActivityRec.progress_percent_tenths,
             demoActivityRec.currently_processed_block,
             demoActivityRec.activity_eta_minutes_tenths,
             demoActivityRec.speed_kbytes_per_sec)) ∧
    (RaidDeviceInfo.ofLines demoHeaderLine demoCountLine
        (some demoActivityLine) (some demoBitmapLine) = some demoBothRec) ∧
    (demoBothRec.has_bitmap = true ∧
     _parse_activity_line demoActivityLine =
       some (demoBothRec.current_activity, demoBothRec.progress_percent_tenths,
             demoBothRec.currently_processed_block,
             demoBothRec.activity_eta_minutes_tenths,
             demoBothRec.speed_kbytes_per_sec) ∧
     _parse_bitmap_line demoBitmapLine =
       some (demoBothRec.bitmap_used_pages, demoBothRec.bitmap_total_pages,
             demoBothRec.bitmap_used_size_kb, demoBothRec.bitmap_chunk_size_kb)) ∧
    (RaidDeviceInfo.ofLines demoHeaderLine demoCountLine none none =
      some demoPlainRec) ∧
    (demoPlainRec.has_bitmap = false ∧ demoPlainRec.current_activity = "idle" ∧
     demoPlainRec.progress_percent_tenths = 0 ∧
     demoPlainRec.currently_processed_block = 0 ∧
     demoPlainRec.activity_eta_minutes_tenths = 0 ∧
     demoPlainRec.speed_kbytes_per_sec = 0) :=
  ⟨by decide,
   (claim_C5_optional_line_disambiguation demoHeaderLine demoCountLine
      demoBitmapLine "" demoBitmapRec).1 (Or.inl (by decide)) (by decide),
   by decide,
   (claim_C5_optional_line_disambiguation demoHeaderLine demoCountLine
      demoActivityLine "" demoActivityRec).2.1 (by decide) (by decide)
     (by decide),
   by decide,
   (claim_C5_optional_line_disambiguation demoHeaderLine demoCountLine
      demoActivityLine demoBitmapLine demoBothRec).2.2.1 (by decide)
     (by decide) (by decide) (by decide),
   by decide,
   (claim_C5_optional_line_disambiguation demoHeaderLine demoCountLine
      "" "" demoPlainRec).2.2.2 (by decide)⟩

end MdMon
